import Mathlib

/-
Shallow embedding of `src/dscontrib/flawrence/abtest_stats/beta.py`.

Conventions of the embedding:
 - pandas DataFrames keyed by branch label become association lists
   `List (String × _)` in index order; column selection by the
   `num_enrollments_label` / `num_conversions_label` arguments is fixed to
   the two fields of `SummaryRow` (the labels only ever name these columns).
 - floating-point sample values and Beta-distribution parameters are
   modelled as rationals `ℚ`.
 - `np.random.beta` and `scipy.stats.beta(..).ppf` are external primitives:
   the random draws and the inverse CDF are oracles (`Rng`, `Ppf`) passed
   as explicit arguments; the numpy parameter validation (shape parameters
   must be positive, size must be non-negative) is part of the embedding
   because the repository code relies on it for its failure behaviour.
 - Python exceptions become `Except PyError`.
-/

namespace AbtestBeta

/-- One row of a summary table: per-branch enrollment and conversion counts
(`num_enrollments`, `num_conversions` columns of the pandas DataFrame). -/
structure SummaryRow where
  num_enrollments : Int
  num_conversions : Int
deriving DecidableEq, Repr

/-- A summary table: branch label to counts, in DataFrame index order. -/
abbrev SummaryTable := List (String × SummaryRow)

/-- The branch labels of a summary table (`df.index`). -/
def branchLabels (df : SummaryTable) : List String := df.map Prod.fst

/-- Python exceptions raised by the module.  `assert` statements raise
AssertionError; the constructor names record which check failed.  numpy and
pandas raise ValueError for bad Beta parameters, negative sizes, and for
coercing a Series to a bool. -/
inductive PyError where
  /-- `assert len(df.index) == 2` in compare_two_from_summary. -/
  | assertLenTwo
  /-- `assert control_label in df.index` in compare_two_from_summary. -/
  | missingControl
  /-- `assert focus_label is not None` in compare_two. -/
  | ambiguousBranch
  /-- `assert ((df[col_label] == 0) | (df[col_label] == 1)).all()`. -/
  | nonBinaryMetric
  /-- numpy ValueError: Beta shape parameter `a <= 0` or `b <= 0`. -/
  | betaParamNonpositive
  /-- numpy ValueError: negative dimensions are not allowed. -/
  | negativeSize
  /-- Python IndexError: list index out of range. -/
  | indexError
  /-- pandas KeyError from `.loc` with a missing label. -/
  | keyError
  /-- pandas ValueError: the truth value of a Series is ambiguous. -/
  | seriesTruthAmbiguous
deriving DecidableEq, Repr

/-- Oracle for `np.random.beta(a, b, size=k)`: the stream of draws as a
function of the shape parameters and the number of draws. -/
abbrev Rng := ℚ → ℚ → Nat → List ℚ

/-- Oracle for `scipy.stats.beta(a, b).ppf(p)`: the inverse CDF of the Beta
distribution as a function of the shape parameters and the probability. -/
abbrev Ppf := ℚ → ℚ → ℚ → ℚ

/-- `np.random.beta(a, b, size)`: rejects non-positive shape parameters and a
negative size (each a ValueError), otherwise returns exactly `size` draws
from the oracle.  The parameter checks come before the size check; the order
is observable only when both are invalid. -/
def npRandomBeta (rng : Rng) (a b : ℚ) (size : Int) : Except PyError (List ℚ) :=
  if a ≤ 0 then .error .betaParamNonpositive
  else if b ≤ 0 then .error .betaParamNonpositive
  else if size < 0 then .error .negativeSize
  else .ok (rng a b size.toNat)

/-- `_generate_samples(df, ..., num_samples)`: one column of
`np.random.beta(c + 1, n - c + 1, size=num_samples)` draws per branch, in
index order; the loop aborts at the first branch whose call raises. -/
def _generate_samples (rng : Rng) (df : SummaryTable) (num_samples : Int) :
    Except PyError (List (String × List ℚ)) :=
  match df with
  | [] => .ok []
  | (b, r) :: rest =>
    match npRandomBeta rng ((r.num_conversions : ℚ) + 1)
        ((r.num_enrollments : ℚ) - (r.num_conversions : ℚ) + 1) num_samples with
    | .error e => .error e
    | .ok col =>
      match _generate_samples rng rest num_samples with
      | .error e => .error e
      | .ok others => .ok ((b, col) :: others)

/-- Output of `summarize_one_from_summary`: the `pd.Series` indexed by
`one_res_index = ['mean', '0.005', '0.05', '0.95', '0.995']`. -/
structure OneRes where
  mean : ℚ
  q005 : ℚ
  q05 : ℚ
  q95 : ℚ
  q995 : ℚ
deriving DecidableEq, Repr

/-- `summarize_one_from_summary(s)`: posterior mean `c / n` and the four
credible-interval quantiles `st.beta(c + 1, n - c + 1).ppf(p)` for
`p` in `[0.005, 0.05, 0.95, 0.995]`.  Note numpy integer division of `0 / 0`
yields NaN rather than raising; `ℚ` division yields `0` at `n = 0`, so
results are meaningful only for `n > 0`, as in the source. -/
def summarize_one_from_summary (ppf : Ppf) (s : SummaryRow) : OneRes :=
  let a : ℚ := (s.num_conversions : ℚ) + 1
  let b : ℚ := (s.num_enrollments : ℚ) - (s.num_conversions : ℚ) + 1
  { mean := (s.num_conversions : ℚ) / (s.num_enrollments : ℚ)
    q005 := ppf a b 0.005
    q05 := ppf a b 0.05
    q95 := ppf a b 0.95
    q995 := ppf a b 0.995 }

/-- Column lookup `samples[label]` in a DataFrame modelled as an assoc list;
the first matching column.  The default `[]` is unreachable when `label` is
a column (Python would raise KeyError). -/
def colOf (samples : List (String × List ℚ)) (label : String) : List ℚ :=
  ((samples.find? (fun p => p.fst == label)).map Prod.snd).getD []

/-- Row lookup `df.loc[label]` in a summary table; the first matching row.
The default row is unreachable when `label` is in the index (Python would
raise KeyError). -/
def rowOf (df : SummaryTable) (label : String) : SummaryRow :=
  ((df.find? (fun p => p.fst == label)).map Prod.snd).getD ⟨0, 0⟩

/-- The distinct elements of a list in first-occurrence order (`set(...)`
membership; a set is unordered, so only the underlying membership is
meaningful). -/
def dedup : List String → List String
  | [] => []
  | x :: t => x :: (dedup t).filter (fun y => y ≠ x)

/-- `list(set(df.index) - {control_label})[0]`: a branch label other than
the control.  Python's set is unordered; with exactly two distinct branches
one of which is the control the set difference is a singleton and the result
is determined.  An empty difference raises IndexError at `[0]`. -/
def testLabelOf (df : SummaryTable) (control_label : String) :
    Except PyError String :=
  match (dedup (branchLabels df)).filter (fun l => l ≠ control_label) with
  | [] => .error .indexError
  | l :: _ => .ok l

/-- Result of `compare_two_from_summary`: the comparative stats Series
(abstract type `Stats`, produced by `compare_two_sample_sets`), its `.name`,
and the `individual` dict in insertion order `[control_label, test_label]`. -/
structure TwoResult (Stats : Type) where
  comparative : Stats
  comparativeName : String
  individual : List (String × OneRes)
deriving DecidableEq, Repr

/-- `compare_two_from_summary(df, control_label, ..., num_samples)`:
assert two branches and the control among them, pick the test label, sample
jointly, compare `(samples[test], samples[control])`, and summarize both
branches individually. -/
def compare_two_from_summary {Stats : Type} (rng : Rng)
    (cmp : List ℚ → List ℚ → Stats) (ppf : Ppf) (df : SummaryTable)
    (control_label : String) (num_samples : Int) :
    Except PyError (TwoResult Stats) :=
  if df.length = 2 then
    if (branchLabels df).contains control_label then
      match testLabelOf df control_label with
      | .error e => .error e
      | .ok test_label =>
        match _generate_samples rng df num_samples with
        | .error e => .error e
        | .ok samples =>
          .ok { comparative :=
                  cmp (colOf samples test_label) (colOf samples control_label)
                comparativeName := "num_conversions"
                individual :=
                  [(control_label,
                    summarize_one_from_summary ppf (rowOf df control_label)),
                   (test_label,
                    summarize_one_from_summary ppf (rowOf df test_label))] }
    else .error .missingControl
  else .error .assertLenTwo

/-- Maximum of a pandas Series of values (`.max()` along a row).  pandas
yields NaN on an empty Series; `0` here is a junk value, unreachable when at
least one other branch exists. -/
def seriesMax : List ℚ → ℚ
  | [] => 0
  | [x] => x
  | x :: y :: t => max x (seriesMax (y :: t))

/-- `samples.drop(branch, axis='columns')`: every column whose label is not
`branch`. -/
def dropCol (samples : List (String × List ℚ)) (branch : String) :
    List (String × List ℚ) :=
  samples.filter (fun p => p.fst ≠ branch)

/-- `samples.max(axis='columns')` over a DataFrame whose index is
`np.arange(num_rows)`: for each row, the maximum across the columns. -/
def rowwiseMax (samples : List (String × List ℚ)) (num_rows : Nat) : List ℚ :=
  (List.range num_rows).map
    (fun i => seriesMax (samples.map (fun p => p.snd.getD i 0)))

/-- Result of `compare_many_from_summary`: the comparative stats DataFrame as
one stats record per branch, its `.name`, and the `individual` dict. -/
structure ManyResult (Stats : Type) where
  comparative : List (String × Stats)
  comparativeName : String
  individual : List (String × OneRes)
deriving DecidableEq, Repr

/-- `compare_many_from_summary(df, ..., num_samples)`: sample all branches
jointly once, then for each branch compare its column against the row-wise
maximum of the other branches' columns, and summarize each branch
individually.  No branch-count validation is performed. -/
def compare_many_from_summary {Stats : Type} (rng : Rng)
    (cmp : List ℚ → List ℚ → Stats) (ppf : Ppf) (df : SummaryTable)
    (num_samples : Int) : Except PyError (ManyResult Stats) :=
  match _generate_samples rng df num_samples with
  | .error e => .error e
  | .ok samples =>
    .ok { comparative := (branchLabels df).map (fun branch =>
            (branch, cmp (colOf samples branch)
              (rowwiseMax (dropCol samples branch) num_samples.toNat)))
          comparativeName := "num_conversions"
          individual := (branchLabels df).map (fun branch =>
            (branch, summarize_one_from_summary ppf (rowOf df branch))) }

/-- A raw experiment DataFrame restricted to its branch column and the one
metric column under analysis (`col_label`): one `(branch, value)` pair per
subject row.  Metric values are Python ints/bools, modelled as `Int`. -/
abbrev RawData := List (String × Int)

/-- Code-point comparison of characters, as Python compares strings. -/
def charLtb (a b : Char) : Bool := a.val < b.val

/-- Lexicographic code-point order on strings (Python string `<`). -/
def strLtb : List Char → List Char → Bool
  | [], [] => false
  | [], _ :: _ => true
  | _ :: _, [] => false
  | a :: as, b :: bs =>
    if charLtb a b then true
    else if charLtb b a then false
    else strLtb as bs

/-- Python string `<=`. -/
def strLeb (a b : String) : Bool := ! strLtb b.data a.data

/-- Insert a label into a sorted list of labels. -/
def insertSorted (x : String) : List String → List String
  | [] => [x]
  | y :: t => if strLeb x y then x :: y :: t else y :: insertSorted x t

/-- Sort branch labels ascending, as pandas groupby sorts its group keys. -/
def sortLabels : List String → List String
  | [] => []
  | x :: t => insertSorted x (sortLabels t)

/-- `df.groupby('branch')[col_label].agg(num_enrollments=len,
num_conversions=np.sum)`: group keys sorted ascending (pandas groupby
default), enrollments = group size, conversions = group sum. -/
def groupSummary (df : RawData) : SummaryTable :=
  (sortLabels (dedup (df.map Prod.fst))).map
    (fun branch =>
      let vals := (df.filter (fun r => r.fst == branch)).map Prod.snd
      (branch, { num_enrollments := (vals.length : Int)
                 num_conversions := vals.sum }))

/-- `compare_two(df, col_label, focus_label, control_label, num_samples)`:
validate the metric column is 0/1-valued, aggregate, extract
`[focus_label, control_label]` when more than two branches (requiring
`focus_label`), and delegate to `compare_two_from_summary`. -/
def compare_two {Stats : Type} (rng : Rng) (cmp : List ℚ → List ℚ → Stats)
    (ppf : Ppf) (df : RawData) (focus_label : Option String)
    (control_label : String) (num_samples : Int) :
    Except PyError (TwoResult Stats) :=
  if df.all (fun r => r.snd == 0 || r.snd == 1) then
    let summary := groupSummary df
    if summary.length > 2 then
      match focus_label with
      | none => .error .ambiguousBranch
      | some focus =>
        if (branchLabels summary).contains focus
            && (branchLabels summary).contains control_label then
          compare_two_from_summary rng cmp ppf
            [(focus, rowOf summary focus),
             (control_label, rowOf summary control_label)]
            control_label num_samples
        else .error .keyError
    else
      compare_two_from_summary rng cmp ppf summary control_label num_samples
  else .error .nonBinaryMetric

/-- `bool(series)` for a pandas Series: `Series.__bool__` raises
unconditionally ("The truth value of a Series is ambiguous"), whatever the
contents or length. -/
def seriesBool (_s : List Bool) : Except PyError Bool :=
  .error .seriesTruthAmbiguous

/-- `compare_many(df, col_label, num_samples)`.  Its validation line is
`assert (df[col_label] == 0) | (df[col_label] == 1).all()`: by Python
precedence this is `(col == 0) | ((col == 1).all())`, an element-wise OR of
a Series with a scalar — a Series — which `assert` then coerces to bool,
raising the pandas ambiguous-truth-value ValueError on every input. -/
def compare_many {Stats : Type} (rng : Rng) (cmp : List ℚ → List ℚ → Stats)
    (ppf : Ppf) (df : RawData) (num_samples : Int) :
    Except PyError (ManyResult Stats) :=
  let vals := df.map Prod.snd
  match seriesBool (vals.map (fun v => v == 0 || vals.all (fun w => w == 1))) with
  | .error e => .error e
  | .ok cond =>
    if cond then
      compare_many_from_summary rng cmp ppf (groupSummary df) num_samples
    else .error .nonBinaryMetric

/-- A concrete deterministic rng used to instantiate witnesses: every draw
is `1/2`. -/
def rng0 : Rng := fun _ _ k => List.replicate k (1 / 2 : ℚ)

/-- A concrete comparator for witnesses, with trivial stats. -/
def cmp0 : List ℚ → List ℚ → Unit := fun _ _ => ()

/-- A concrete inverse-CDF oracle for witnesses: constantly `0`. -/
def ppf0 : Ppf := fun _ _ _ => 0

/-- Whether a call completed without raising. -/
def exceptIsOk {α : Type} : Except PyError α → Bool
  | .ok _ => true
  | .error _ => false

/-- The closed form of a successfully generated sample table: for the branch
with `num_conversions = c` and `num_enrollments = n`, the column of
`num_samples` draws from the `Beta(c + 1, n - c + 1)` stream of the rng. -/
def sampleTableOf (rng : Rng) (df : SummaryTable) (num_samples : Int) :
    List (String × List ℚ) :=
  df.map (fun p => (p.fst,
    rng (((p.snd).num_conversions : ℚ) + 1)
      (((p.snd).num_enrollments : ℚ) - ((p.snd).num_conversions : ℚ) + 1)
      num_samples.toNat))

/- Helper lemmas. -/

theorem npRandomBeta_ok_of_valid (rng : Rng) (r : SummaryRow) (size : Int)
    (hc : 0 ≤ r.num_conversions) (hcn : r.num_conversions ≤ r.num_enrollments)
    (hsz : 0 ≤ size) :
    npRandomBeta rng ((r.num_conversions : ℚ) + 1)
      ((r.num_enrollments : ℚ) - (r.num_conversions : ℚ) + 1) size =
    .ok (rng ((r.num_conversions : ℚ) + 1)
      ((r.num_enrollments : ℚ) - (r.num_conversions : ℚ) + 1) size.toNat) := by
  have hc' : (0 : ℚ) ≤ (r.num_conversions : ℚ) := by exact_mod_cast hc
  have hcn' : (r.num_conversions : ℚ) ≤ (r.num_enrollments : ℚ) := by
    exact_mod_cast hcn
  have h1 : ¬ ((r.num_conversions : ℚ) + 1 ≤ 0) := by linarith
  have h2 : ¬ ((r.num_enrollments : ℚ) - (r.num_conversions : ℚ) + 1 ≤ 0) := by
    linarith
  have h3 : ¬ (size < 0) := by omega
  simp [npRandomBeta, h1, h2, h3]

theorem npRandomBeta_ok_inv (rng : Rng) (a b : ℚ) (size : Int)
    (col : List ℚ) (h : npRandomBeta rng a b size = .ok col) :
    col = rng a b size.toNat := by
  unfold npRandomBeta at h
  split_ifs at h
  exact (Except.ok.injEq _ _).mp h.symm

theorem npRandomBeta_error_of_bad (rng : Rng) (r : SummaryRow) (size : Int)
    (hbad : r.num_enrollments < r.num_conversions) :
    ∃ e, npRandomBeta rng ((r.num_conversions : ℚ) + 1)
      ((r.num_enrollments : ℚ) - (r.num_conversions : ℚ) + 1) size = .error e := by
  have hb : (r.num_enrollments : ℚ) - (r.num_conversions : ℚ) + 1 ≤ 0 := by
    have : (r.num_enrollments : ℚ) + 1 ≤ (r.num_conversions : ℚ) := by
      exact_mod_cast Int.add_one_le_iff.mpr hbad
    linarith
  unfold npRandomBeta
  by_cases ha : (r.num_conversions : ℚ) + 1 ≤ 0 <;> simp [ha, hb]

theorem npRandomBeta_error_of_negsize (rng : Rng) (a b : ℚ) (size : Int)
    (hsz : size < 0) : ∃ e, npRandomBeta rng a b size = .error e := by
  unfold npRandomBeta
  by_cases ha : a ≤ 0
  · simp [ha]
  · by_cases hb : b ≤ 0 <;> simp [ha, hb, hsz]

theorem generate_samples_ok (rng : Rng) (df : SummaryTable) (ns : Int)
    (hvalid : ∀ p ∈ df, 0 ≤ (p.snd).num_conversions ∧
      (p.snd).num_conversions ≤ (p.snd).num_enrollments)
    (hns : 0 ≤ ns) :
    _generate_samples rng df ns = .ok (sampleTableOf rng df ns) := by
  induction df with
  | nil => simp [_generate_samples, sampleTableOf]
  | cons p rest ih =>
    obtain ⟨b, r⟩ := p
    have hv := hvalid (b, r) (by simp)
    rw [_generate_samples, npRandomBeta_ok_of_valid rng r ns hv.1 hv.2 hns,
      ih (fun q hq => hvalid q (List.mem_cons_of_mem _ hq))]
    simp [sampleTableOf]

theorem generate_samples_ok_lengths (rng : Rng)
    (hrng : ∀ a b k, (rng a b k).length = k) (df : SummaryTable) (ns : Int)
    (samples : List (String × List ℚ))
    (h : _generate_samples rng df ns = .ok samples) :
    ∀ p ∈ samples, (p.snd).length = ns.toNat := by
  induction df generalizing samples with
  | nil =>
    simp [_generate_samples] at h
    subst h
    simp
  | cons q rest ih =>
    obtain ⟨b, r⟩ := q
    rw [_generate_samples] at h
    cases hnp : npRandomBeta rng ((r.num_conversions : ℚ) + 1)
        ((r.num_enrollments : ℚ) - (r.num_conversions : ℚ) + 1) ns with
    | error e => rw [hnp] at h; exact absurd h (by simp)
    | ok col =>
      rw [hnp] at h
      cases hrest : _generate_samples rng rest ns with
      | error e => rw [hrest] at h; exact absurd h (by simp)
      | ok others =>
        rw [hrest] at h
        have hcol := npRandomBeta_ok_inv rng _ _ ns col hnp
        have hs : samples = (b, col) :: others := by
          simpa using h.symm
        subst hs
        intro p hp
        rcases List.mem_cons.mp hp with hhead | htail
        · subst hhead; simpa [hcol] using hrng _ _ _
        · exact ih others hrest p htail

theorem generate_samples_not_ok_of_bad (rng : Rng) (df : SummaryTable)
    (ns : Int)
    (hbad : ∃ p ∈ df, (p.snd).num_enrollments < (p.snd).num_conversions) :
    ∀ s, _generate_samples rng df ns ≠ .ok s := by
  induction df with
  | nil => simp at hbad
  | cons q rest ih =>
    obtain ⟨b, r⟩ := q
    intro s hs
    rw [_generate_samples] at hs
    obtain ⟨p, hp, hplt⟩ := hbad
    rcases List.mem_cons.mp hp with hhead | htail
    · subst hhead
      obtain ⟨e, he⟩ := npRandomBeta_error_of_bad rng r ns hplt
      rw [he] at hs
      exact absurd hs (by simp)
    · cases hnp : npRandomBeta rng ((r.num_conversions : ℚ) + 1)
          ((r.num_enrollments : ℚ) - (r.num_conversions : ℚ) + 1) ns with
      | error e => rw [hnp] at hs; exact absurd hs (by simp)
      | ok col =>
        rw [hnp] at hs
        cases hrest : _generate_samples rng rest ns with
        | error e => rw [hrest] at hs; exact absurd hs (by simp)
        | ok others => exact ih ⟨p, htail, hplt⟩ others hrest

theorem generate_samples_not_ok_of_negsize (rng : Rng) (df : SummaryTable)
    (ns : Int) (hdf : df ≠ []) (hns : ns < 0) :
    ∀ s, _generate_samples rng df ns ≠ .ok s := by
  intro s hs
  cases df with
  | nil => exact hdf rfl
  | cons q rest =>
    obtain ⟨b, r⟩ := q
    rw [_generate_samples] at hs
    obtain ⟨e, he⟩ := npRandomBeta_error_of_negsize rng _ _ ns hns
    rw [he] at hs
    exact absurd hs (by simp)

theorem seriesMax_mem : ∀ (l : List ℚ), l ≠ [] → seriesMax l ∈ l
  | [], h => absurd rfl h
  | [x], _ => by simp [seriesMax]
  | x :: y :: t, _ => by
    rw [seriesMax]
    rcases max_choice x (seriesMax (y :: t)) with h | h
    · simp [h]
    · rw [h]
      exact List.mem_cons_of_mem x (seriesMax_mem (y :: t) (by simp))

theorem le_seriesMax : ∀ (l : List ℚ), ∀ v ∈ l, v ≤ seriesMax l
  | [], v, hv => absurd hv (by simp)
  | [x], v, hv => by
    rw [List.mem_singleton] at hv
    simp [hv, seriesMax]
  | x :: y :: t, v, hv => by
    rw [seriesMax]
    rcases List.mem_cons.mp hv with hhead | htail
    · exact hhead ▸ le_max_left _ _
    · exact le_trans (le_seriesMax (y :: t) v htail) (le_max_right _ _)

theorem seriesMax_singleton (x : ℚ) : seriesMax [x] = x := rfl

theorem map_getD_range (l : List ℚ) (n : Nat) (d : ℚ) (hl : l.length = n) :
    (List.range n).map (fun i => l.getD i d) = l := by
  apply List.ext_getElem
  · simp [hl]
  · intro i h1 h2
    simp only [List.getElem_map, List.getElem_range]
    rw [List.getD_eq_getElem]

theorem rowwiseMax_single (b : String) (col : List ℚ) (n : Nat)
    (hcol : col.length = n) : rowwiseMax [(b, col)] n = col := by
  simp only [rowwiseMax, List.map_cons, List.map_nil, seriesMax_singleton]
  exact map_getD_range col n 0 hcol

theorem rowwiseMax_getD (cols : List (String × List ℚ)) (n i : Nat)
    (hi : i < n) :
    (rowwiseMax cols n).getD i 0 =
      seriesMax (cols.map (fun p => (p.snd).getD i 0)) := by
  rw [rowwiseMax, List.getD_eq_getElem _ _ (by simpa using hi)]
  simp

theorem rowwiseMax_length (cols : List (String × List ℚ)) (n : Nat) :
    (rowwiseMax cols n).length = n := by
  simp [rowwiseMax]

theorem find?_map_pair {β : Type} (g : String → β) :
    ∀ (l : List String) (b : String), b ∈ l →
      (l.map (fun x => (x, g x))).find? (fun p => p.fst == b) = some (b, g b)
  | [], b, hb => absurd hb (by simp)
  | x :: t, b, hb => by
    by_cases hxb : x = b
    · subst hxb
      simp [List.find?]
    · have hbt : b ∈ t := by
        rcases List.mem_cons.mp hb with h | h
        · exact absurd h.symm hxb
        · exact h
      have hfalse : (x == b) = false := by simp [hxb]
      simp only [List.map_cons, List.find?, hfalse]
      exact find?_map_pair g t b hbt

theorem length_insertSorted (x : String) :
    ∀ (l : List String), (insertSorted x l).length = l.length + 1
  | [] => rfl
  | y :: t => by
    rw [insertSorted]
    by_cases h : strLeb x y = true
    · simp [h]
    · simp [h, length_insertSorted x t]

theorem length_sortLabels :
    ∀ (l : List String), (sortLabels l).length = l.length
  | [] => rfl
  | x :: t => by
    rw [sortLabels, length_insertSorted, length_sortLabels t, List.length_cons]

theorem length_groupSummary (df : RawData) :
    (groupSummary df).length = (dedup (df.map Prod.fst)).length := by
  simp [groupSummary, length_sortLabels]

/- Claim theorems. -/

/-- C1: for every summary table whose rows are genuine counts
(`0 ≤ conversions ≤ enrollments`) and every `num_samples ≥ 0`, the posterior
sampler returns the table that gives each branch with conversions `c` and
enrollments `n` the column of `num_samples` draws from the rng's
`Beta(c + 1, n - c + 1)` stream, and every column of the returned table has
exactly `num_samples` rows. -/
theorem generate_samples_beta_columns (rng : Rng) (df : SummaryTable)
    (ns : Int) (hrng : ∀ a b k, (rng a b k).length = k)
    (hvalid : ∀ p ∈ df, 0 ≤ (p.snd).num_conversions ∧
      (p.snd).num_conversions ≤ (p.snd).num_enrollments)
    (hns : 0 ≤ ns) :
    _generate_samples rng df ns = .ok (sampleTableOf rng df ns) ∧
    ∀ p ∈ sampleTableOf rng df ns, (p.snd).length = ns.toNat := by
  have hok := generate_samples_ok rng df ns hvalid hns
  exact ⟨hok, generate_samples_ok_lengths rng hrng df ns _ hok⟩

/-- Witness for C1: a concrete one-branch table, rng and sample count. -/
theorem generate_samples_beta_columns_witness :
    _generate_samples rng0 [("control", ⟨2, 1⟩)] 3 =
      .ok (sampleTableOf rng0 [("control", ⟨2, 1⟩)] 3) ∧
    ∀ p ∈ sampleTableOf rng0 [("control", ⟨2, 1⟩)] 3,
      (p.snd).length = (3 : Int).toNat :=
  generate_samples_beta_columns rng0 [("control", ⟨2, 1⟩)] 3
    (fun a b k => by simp [rng0])
    (by
      intro p hp
      rw [List.mem_singleton] at hp
      subst hp
      exact ⟨by decide, by decide⟩)
    (by decide)

/-- C2: for a branch row with enrollments `n > 0` and conversions `c`, the
single-branch summarizer returns mean `c / n` and exactly the four
quantiles of the Beta inverse CDF at probabilities 0.005, 0.05, 0.95 and
0.995 with parameters `(c + 1, n - c + 1)` — the same parameters the
posterior sampler passes to the rng for that row. -/
theorem summarize_one_beta_quantiles (ppf : Ppf) (rng : Rng) (l : String)
    (s : SummaryRow) (ns : Int) (_hn : 0 < s.num_enrollments)
    (hc : 0 ≤ s.num_conversions) (hcn : s.num_conversions ≤ s.num_enrollments)
    (hns : 0 ≤ ns) :
    summarize_one_from_summary ppf s =
      { mean := (s.num_conversions : ℚ) / (s.num_enrollments : ℚ)
        q005 := ppf ((s.num_conversions : ℚ) + 1)
          ((s.num_enrollments : ℚ) - (s.num_conversions : ℚ) + 1) 0.005
        q05 := ppf ((s.num_conversions : ℚ) + 1)
          ((s.num_enrollments : ℚ) - (s.num_conversions : ℚ) + 1) 0.05
        q95 := ppf ((s.num_conversions : ℚ) + 1)
          ((s.num_enrollments : ℚ) - (s.num_conversions : ℚ) + 1) 0.95
        q995 := ppf ((s.num_conversions : ℚ) + 1)
          ((s.num_enrollments : ℚ) - (s.num_conversions : ℚ) + 1) 0.995 } ∧
    _generate_samples rng [(l, s)] ns =
      .ok [(l, rng ((s.num_conversions : ℚ) + 1)
        ((s.num_enrollments : ℚ) - (s.num_conversions : ℚ) + 1) ns.toNat)] := by
  constructor
  · rfl
  · rw [generate_samples_ok rng [(l, s)] ns
      (by
        intro p hp
        rw [List.mem_singleton] at hp
        subst hp
        exact ⟨hc, hcn⟩) hns]
    simp [sampleTableOf]

/-- Witness for C2: a concrete row, label, ppf and rng. -/
theorem summarize_one_beta_quantiles_witness :
    summarize_one_from_summary ppf0 ⟨100, 40⟩ =
      { mean := ((40 : Int) : ℚ) / ((100 : Int) : ℚ)
        q005 := ppf0 (((40 : Int) : ℚ) + 1)
          (((100 : Int) : ℚ) - ((40 : Int) : ℚ) + 1) 0.005
        q05 := ppf0 (((40 : Int) : ℚ) + 1)
          (((100 : Int) : ℚ) - ((40 : Int) : ℚ) + 1) 0.05
        q95 := ppf0 (((40 : Int) : ℚ) + 1)
          (((100 : Int) : ℚ) - ((40 : Int) : ℚ) + 1) 0.95
        q995 := ppf0 (((40 : Int) : ℚ) + 1)
          (((100 : Int) : ℚ) - ((40 : Int) : ℚ) + 1) 0.995 } ∧
    _generate_samples rng0 [("control", ⟨100, 40⟩)] 5 =
      .ok [("control", rng0 (((40 : Int) : ℚ) + 1)
        (((100 : Int) : ℚ) - ((40 : Int) : ℚ) + 1) (5 : Int).toNat)] :=
  summarize_one_beta_quantiles ppf0 rng0 ("control") ⟨100, 40⟩ 5
    (by decide) (by decide) (by decide) (by decide)

/-- C5 counterexample: with `num_samples = 0` a full two-branch analysis
completes successfully, so the claim that every `num_samples ≤ 0` fails
with an invalid-sample-count error is false on the code. -/
theorem num_samples_zero_not_rejected :
    exceptIsOk (compare_two_from_summary rng0 cmp0 ppf0
      [("control", ⟨100, 5⟩), ("treatment", ⟨100, 6⟩)] "control" 0) = true := by
  norm_num [compare_two_from_summary, _generate_samples, npRandomBeta, rng0,
    testLabelOf, dedup, branchLabels, exceptIsOk]
  simp +decide

/-- C5 (amended): the code performs no validation of its own; failures come
from the rng's parameter checks inside the sampling loop.  A branch with
`enrollments < conversions` makes the sampler fail (its Beta shape
parameter `n - c + 1` is non-positive when it reaches the rng, not at an
orchestrator validation boundary); a negative `num_samples` fails at the
rng's size check whenever the table is non-empty; and `num_samples = 0` is
not rejected: with genuine counts the sampler returns a table of empty
columns. -/
theorem sampler_failure_behavior :
    (∀ (rng : Rng) (df : SummaryTable) (ns : Int),
      (∃ p ∈ df, (p.snd).num_enrollments < (p.snd).num_conversions) →
      ∀ s, _generate_samples rng df ns ≠ .ok s) ∧
    (∀ (rng : Rng) (df : SummaryTable) (ns : Int), df ≠ [] → ns < 0 →
      ∀ s, _generate_samples rng df ns ≠ .ok s) ∧
    (∀ (rng : Rng) (df : SummaryTable),
      (∀ a b k, (rng a b k).length = k) →
      (∀ p ∈ df, 0 ≤ (p.snd).num_conversions ∧
        (p.snd).num_conversions ≤ (p.snd).num_enrollments) →
      ∃ s, _generate_samples rng df 0 = .ok s ∧
        ∀ p ∈ s, p.snd = ([] : List ℚ)) := by
  refine ⟨generate_samples_not_ok_of_bad, generate_samples_not_ok_of_negsize,
    fun rng df hrng hvalid => ⟨sampleTableOf rng df 0,
      generate_samples_ok rng df 0 hvalid le_rfl, fun p hp => ?_⟩⟩
  have := generate_samples_ok_lengths rng hrng df 0 _
    (generate_samples_ok rng df 0 hvalid le_rfl) p hp
  simpa [List.length_eq_zero] using this

/-- Witness for C5's amended statement: each conjunct applied at a concrete
table, rng and sample count. -/
theorem sampler_failure_behavior_witness :
    (∀ s, _generate_samples rng0 [("a", ⟨1, 2⟩)] 4 ≠ .ok s) ∧
    (∀ s, _generate_samples rng0 [("a", ⟨1, 0⟩)] (-1) ≠ .ok s) ∧
    (∃ s, _generate_samples rng0 [("a", ⟨1, 0⟩)] 0 = .ok s ∧
      ∀ p ∈ s, p.snd = ([] : List ℚ)) :=
  ⟨sampler_failure_behavior.1 rng0 [("a", ⟨1, 2⟩)] 4
      ⟨("a", ⟨1, 2⟩), by simp, by decide⟩,
    sampler_failure_behavior.2.1 rng0 [("a", ⟨1, 0⟩)] (-1)
      (by simp) (by decide),
    sampler_failure_behavior.2.2 rng0 [("a", ⟨1, 0⟩)]
      (fun a b k => by simp [rng0])
      (by
        intro p hp
        rw [List.mem_singleton] at hp
        subst hp
        exact ⟨by decide, by decide⟩)⟩

/-- C3: the multi-branch orchestrator samples the whole table once and, for
each branch `b` of the table, invokes the comparator with first argument
`b`'s column of that shared sample table and second argument a sequence of
`num_samples` values whose `i`-th entry is the maximum of the other
branches' sample values at row `i` (an element of that row which every
element of the row is `≤`). -/
theorem compare_many_invokes_best_of_rest {Stats : Type} (rng : Rng)
    (cmp : List ℚ → List ℚ → Stats) (ppf : Ppf) (df : SummaryTable) (ns : Int)
    (hrng : ∀ a b k, (rng a b k).length = k) (b : String)
    (hb : b ∈ branchLabels df) (samples : List (String × List ℚ))
    (hgen : _generate_samples rng df ns = .ok samples)
    (hrest : dropCol samples b ≠ []) :
    ∃ r, compare_many_from_summary rng cmp ppf df ns = .ok r ∧
      r.comparative.find? (fun p => p.fst == b) =
        some (b, cmp (colOf samples b)
          (rowwiseMax (dropCol samples b) ns.toNat)) ∧
      (rowwiseMax (dropCol samples b) ns.toNat).length = ns.toNat ∧
      (∀ p ∈ dropCol samples b, (p.snd).length = ns.toNat) ∧
      ∀ i, i < ns.toNat →
        (rowwiseMax (dropCol samples b) ns.toNat).getD i 0
            ∈ (dropCol samples b).map (fun p => (p.snd).getD i 0) ∧
        ∀ v ∈ (dropCol samples b).map (fun p => (p.snd).getD i 0),
          v ≤ (rowwiseMax (dropCol samples b) ns.toNat).getD i 0 := by
  refine ⟨_, by rw [compare_many_from_summary, hgen], ?_, rowwiseMax_length _ _,
    fun p hp => generate_samples_ok_lengths rng hrng df ns samples hgen p
      (List.mem_of_mem_filter hp), fun i hi => ?_⟩
  · exact find?_map_pair
      (fun branch => cmp (colOf samples branch)
        (rowwiseMax (dropCol samples branch) ns.toNat))
      (branchLabels df) b hb
  · have hnil : (dropCol samples b).map (fun p => (p.snd).getD i 0) ≠ [] := by
      simpa using hrest
    rw [rowwiseMax_getD _ _ _ hi]
    exact ⟨seriesMax_mem _ hnil, le_seriesMax _⟩

/-- Witness for C3: a concrete two-branch table, rng and branch. -/
theorem compare_many_invokes_best_of_rest_witness :
    ∃ r, compare_many_from_summary rng0 cmp0 ppf0
        [("a", ⟨2, 1⟩), ("b", ⟨2, 1⟩)] 2 = .ok r ∧
      r.comparative.find? (fun p => p.fst == "a") =
        some ("a", cmp0
          (colOf [("a", [1/2, 1/2]), ("b", [1/2, 1/2])] "a")
          (rowwiseMax (dropCol [("a", [1/2, 1/2]), ("b", [1/2, 1/2])] "a")
            (2 : Int).toNat)) ∧
      (rowwiseMax (dropCol [("a", [1/2, 1/2]), ("b", [1/2, 1/2])] "a")
          (2 : Int).toNat).length = (2 : Int).toNat ∧
      (∀ p ∈ dropCol [("a", [1/2, 1/2]), ("b", [1/2, 1/2])] "a",
        (p.snd).length = (2 : Int).toNat) ∧
      ∀ i, i < (2 : Int).toNat →
        (rowwiseMax (dropCol [("a", [1/2, 1/2]), ("b", [1/2, 1/2])] "a")
              (2 : Int).toNat).getD i 0
            ∈ (dropCol [("a", [1/2, 1/2]), ("b", [1/2, 1/2])] "a").map
              (fun p => (p.snd).getD i 0) ∧
        ∀ v ∈ (dropCol [("a", [1/2, 1/2]), ("b", [1/2, 1/2])] "a").map
            (fun p => (p.snd).getD i 0),
          v ≤ (rowwiseMax (dropCol [("a", [1/2, 1/2]), ("b", [1/2, 1/2])] "a")
            (2 : Int).toNat).getD i 0 :=
  compare_many_invokes_best_of_rest rng0 cmp0 ppf0
    [("a", ⟨2, 1⟩), ("b", ⟨2, 1⟩)] 2 (fun a b k => by simp [rng0]) "a"
    (by simp [branchLabels]) [("a", [1/2, 1/2]), ("b", [1/2, 1/2])]
    (by norm_num [_generate_samples, npRandomBeta, rng0]
        simp +decide)
    (by simp +decide [dropCol])

/-- C4: on a two-branch table with the same rng (hence the same sample
table in both runs), the multi-branch orchestrator's comparative entry for
the non-control branch is exactly the two-branch orchestrator's comparative
result: with one other branch the row-wise best-of-rest is that branch's
column. -/
theorem two_vs_many_consistency {Stats : Type} (rng : Rng)
    (cmp : List ℚ → List ℚ → Stats) (ppf : Ppf) (cl tl : String)
    (rc rt : SummaryRow) (ns : Int) (hne : tl ≠ cl)
    (hrng : ∀ a b k, (rng a b k).length = k)
    (hvc : 0 ≤ rc.num_conversions ∧ rc.num_conversions ≤ rc.num_enrollments)
    (hvt : 0 ≤ rt.num_conversions ∧ rt.num_conversions ≤ rt.num_enrollments)
    (hns : 0 ≤ ns) :
    ∃ rM r2,
      compare_many_from_summary rng cmp ppf [(cl, rc), (tl, rt)] ns = .ok rM ∧
      compare_two_from_summary rng cmp ppf [(cl, rc), (tl, rt)] cl ns =
        .ok r2 ∧
      rM.comparative.find? (fun p => p.fst == tl) =
        some (tl, r2.comparative) := by
  have hvalid : ∀ p ∈ [(cl, rc), (tl, rt)], 0 ≤ (p.snd).num_conversions ∧
      (p.snd).num_conversions ≤ (p.snd).num_enrollments := by
    intro p hp
    rcases List.mem_cons.mp hp with h | h
    · subst h; exact hvc
    · rw [List.mem_singleton] at h; subst h; exact hvt
  have hgen := generate_samples_ok rng [(cl, rc), (tl, rt)] ns hvalid hns
  have hne' : cl ≠ tl := Ne.symm hne
  set cC : List ℚ := rng ((rc.num_conversions : ℚ) + 1)
    ((rc.num_enrollments : ℚ) - (rc.num_conversions : ℚ) + 1) ns.toNat with hcC
  set cT : List ℚ := rng ((rt.num_conversions : ℚ) + 1)
    ((rt.num_enrollments : ℚ) - (rt.num_conversions : ℚ) + 1) ns.toNat with hcT
  have hsamples : sampleTableOf rng [(cl, rc), (tl, rt)] ns =
      [(cl, cC), (tl, cT)] := by
    simp [sampleTableOf]
  rw [hsamples] at hgen
  have hdrop : dropCol [(cl, cC), (tl, cT)] tl = [(cl, cC)] := by
    simp [dropCol, hne, hne']
  have hmax : rowwiseMax [(cl, cC)] ns.toNat = cC :=
    rowwiseMax_single cl cC ns.toNat (hrng _ _ _)
  have hbeq : (cl == tl) = false := by simp [hne']
  have hcolT : colOf [(cl, cC), (tl, cT)] tl = cT := by
    simp [colOf, List.find?, hbeq]
  have hcolC : colOf [(cl, cC), (tl, cT)] cl = cC := by
    simp [colOf, List.find?]
  have htest : testLabelOf [(cl, rc), (tl, rt)] cl = .ok tl := by
    simp [testLabelOf, dedup, branchLabels, hne, hne']
  cases hM : compare_many_from_summary rng cmp ppf [(cl, rc), (tl, rt)] ns with
  | error e =>
    rw [compare_many_from_summary, hgen] at hM
    exact absurd hM (by simp)
  | ok rM =>
    cases h2 : compare_two_from_summary rng cmp ppf [(cl, rc), (tl, rt)] cl ns
        with
    | error e =>
      rw [compare_two_from_summary, if_pos (by simp),
        if_pos (by simp [branchLabels]), htest, hgen] at h2
      exact absurd h2 (by simp)
    | ok r2 =>
      rw [compare_many_from_summary, hgen] at hM
      rw [compare_two_from_summary, if_pos (by simp),
        if_pos (by simp [branchLabels]), htest, hgen] at h2
      have hMr := (Except.ok.injEq _ _).mp hM
      have h2r := (Except.ok.injEq _ _).mp h2
      refine ⟨rM, r2, rfl, rfl, ?_⟩
      rw [← hMr, ← h2r]
      simp only [branchLabels, List.map_cons, List.map_nil, List.find?, hbeq,
        beq_self_eq_true]
      rw [hdrop, hmax, hcolT, hcolC]

/-- Witness for C4: concrete branches, counts, rng and sample count. -/
theorem two_vs_many_consistency_witness :
    ∃ rM r2,
      compare_many_from_summary rng0 cmp0 ppf0
        [("control", ⟨10, 1⟩), ("treatment", ⟨10, 2⟩)] 4 = .ok rM ∧
      compare_two_from_summary rng0 cmp0 ppf0
        [("control", ⟨10, 1⟩), ("treatment", ⟨10, 2⟩)] "control" 4 = .ok r2 ∧
      rM.comparative.find? (fun p => p.fst == "treatment") =
        some ("treatment", r2.comparative) :=
  two_vs_many_consistency rng0 cmp0 ppf0 ("control") ("treatment") ⟨10, 1⟩ ⟨10, 2⟩
    4 (by decide) (fun a b k => by simp [rng0]) ⟨by decide, by decide⟩
    ⟨by decide, by decide⟩ (by decide)

/-- C6: control/focus resolution failures happen before any sampling (the
error is the same for every rng): a control label absent from a two-branch
summary table fails with the missing-control assertion, and a raw table
aggregating to more than two branches with no focus label fails with the
ambiguous-branch assertion. -/
theorem control_and_focus_validation {Stats : Type}
    (cmp : List ℚ → List ℚ → Stats) (ppf : Ppf) :
    (∀ (df : SummaryTable) (control : String) (ns : Int), df.length = 2 →
      control ∉ branchLabels df →
      ∀ rng : Rng, compare_two_from_summary rng cmp ppf df control ns =
        .error .missingControl) ∧
    (∀ (df : RawData) (control : String) (ns : Int),
      df.all (fun r => r.snd == 0 || r.snd == 1) = true →
      2 < (dedup (df.map Prod.fst)).length →
      ∀ rng : Rng, compare_two rng cmp ppf df none control ns =
        .error .ambiguousBranch) := by
  constructor
  · intro df control ns hlen hmem rng
    rw [compare_two_from_summary, if_pos hlen, if_neg (by simpa using hmem)]
  · intro df control ns hbin hgt rng
    have hlen : 2 < (groupSummary df).length := by
      rw [length_groupSummary]
      exact hgt
    rw [compare_two, if_pos hbin, if_pos hlen]

/-- Witness for C6: a concrete missing control and a concrete three-branch
raw table with no focus label. -/
theorem control_and_focus_validation_witness :
    compare_two_from_summary rng0 cmp0 ppf0
        [("a", ⟨1, 0⟩), ("b", ⟨1, 0⟩)] "c" 5 = .error .missingControl ∧
    compare_two rng0 cmp0 ppf0 [("a", 0), ("b", 1), ("c", 1)] none
        ("a") 5 = .error .ambiguousBranch :=
  ⟨(control_and_focus_validation cmp0 ppf0).1 [("a", ⟨1, 0⟩), ("b", ⟨1, 0⟩)]
      "c" 5 (by decide) (by decide) rng0,
    (control_and_focus_validation cmp0 ppf0).2 [("a", 0), ("b", 1), ("c", 1)]
      "a" 5 (by decide) (by decide) rng0⟩

/-- C7 (code behaviour): the raw-data entry point `compare_many` never
performs the claimed 0/1 validation.  Its assert line parenthesizes as
`(col == 0) | ((col == 1).all())`, an element-wise OR of a Series with a
scalar — still a Series — and Python's assert coerces that Series to bool,
which pandas rejects on every input, binary-valued or not.  `compare_two`'s
correctly parenthesized assert shows the intent. -/
theorem compare_many_always_raises {Stats : Type} (rng : Rng)
    (cmp : List ℚ → List ℚ → Stats) (ppf : Ppf) (df : RawData) (ns : Int) :
    compare_many rng cmp ppf df ns = .error .seriesTruthAmbiguous := by
  rw [compare_many]
  rfl

/-- C8: the degenerate all-zero-conversion two-branch table completes
without error for every rng, comparator and inverse CDF (the Laplace `+1`
keeps the Beta parameters at `(1, 101)`, both positive), and both branches'
individual summaries have mean 0. -/
theorem degenerate_zero_conversions {Stats : Type} (rng : Rng)
    (cmp : List ℚ → List ℚ → Stats) (ppf : Ppf) :
    ∃ r, compare_two_from_summary rng cmp ppf
        [("control", ⟨100, 0⟩), ("treatment", ⟨100, 0⟩)] "control" 10000 =
        .ok r ∧
      r.individual.map (fun p => (p.fst, (p.snd).mean)) =
        [("control", 0), ("treatment", 0)] := by
  have hgen := generate_samples_ok rng
    [("control", ⟨100, 0⟩), ("treatment", ⟨100, 0⟩)] 10000
    (by
      intro p hp
      rcases List.mem_cons.mp hp with h | h
      · subst h; exact ⟨by decide, by decide⟩
      · rw [List.mem_singleton] at h
        subst h
        exact ⟨by decide, by decide⟩)
    (by decide)
  have htest : testLabelOf
      [("control", (⟨100, 0⟩ : SummaryRow)), ("treatment", ⟨100, 0⟩)]
      "control" = .ok ("treatment") := by
    simp +decide [testLabelOf, dedup, branchLabels]
  cases hres : compare_two_from_summary rng cmp ppf
      [("control", ⟨100, 0⟩), ("treatment", ⟨100, 0⟩)] "control" 10000 with
  | error e =>
    rw [compare_two_from_summary, if_pos (by decide),
      if_pos (by simp +decide [branchLabels]), htest, hgen] at hres
    exact absurd hres (by simp)
  | ok r =>
    rw [compare_two_from_summary, if_pos (by decide),
      if_pos (by simp +decide [branchLabels]), htest, hgen] at hres
    have hr := (Except.ok.injEq _ _).mp hres
    refine ⟨r, rfl, ?_⟩
    rw [← hr]
    simp +decide [rowOf, summarize_one_from_summary]

/-- C9: every successful analysis result pairs its comparative statistics
with an individual entry for every branch they reference: the two-branch
orchestrator's individual map is keyed by exactly the control and test
labels it compared, and the multi-branch orchestrator's comparative and
individual maps are both keyed by exactly the table's branches. -/
theorem analysis_result_branch_coverage {Stats : Type} :
    (∀ (rng : Rng) (cmp : List ℚ → List ℚ → Stats) (ppf : Ppf)
      (df : SummaryTable) (control : String) (ns : Int)
      (r : TwoResult Stats),
      compare_two_from_summary rng cmp ppf df control ns = .ok r →
      ∃ t, testLabelOf df control = .ok t ∧
        r.individual.map Prod.fst = [control, t]) ∧
    (∀ (rng : Rng) (cmp : List ℚ → List ℚ → Stats) (ppf : Ppf)
      (df : SummaryTable) (ns : Int) (r : ManyResult Stats),
      compare_many_from_summary rng cmp ppf df ns = .ok r →
      r.comparative.map Prod.fst = branchLabels df ∧
      r.individual.map Prod.fst = branchLabels df) := by
  constructor
  · intro rng cmp ppf df control ns r h
    rw [compare_two_from_summary] at h
    by_cases hlen : df.length = 2
    · rw [if_pos hlen] at h
      by_cases hcont : (branchLabels df).contains control
      · rw [if_pos hcont] at h
        cases ht : testLabelOf df control with
        | error e => rw [ht] at h; exact absurd h (by simp)
        | ok t =>
          rw [ht] at h
          cases hg : _generate_samples rng df ns with
          | error e => rw [hg] at h; exact absurd h (by simp)
          | ok samples =>
            rw [hg] at h
            have hr := (Except.ok.injEq _ _).mp h
            exact ⟨t, rfl, by rw [← hr]; simp⟩
      · rw [if_neg hcont] at h
        exact absurd h (by simp)
    · rw [if_neg hlen] at h
      exact absurd h (by simp)
  · intro rng cmp ppf df ns r h
    rw [compare_many_from_summary] at h
    cases hg : _generate_samples rng df ns with
    | error e => rw [hg] at h; exact absurd h (by simp)
    | ok samples =>
      rw [hg] at h
      have hr := (Except.ok.injEq _ _).mp h
      constructor <;> rw [← hr] <;> simp [Function.comp_def]

/-- Witness for C9: both orchestrators at a concrete table with the results
they compute there. -/
theorem analysis_result_branch_coverage_witness :
    (∃ t, testLabelOf
        [("control", (⟨2, 1⟩ : SummaryRow)), ("treatment", ⟨2, 2⟩)]
        "control" = .ok t ∧
      (({ comparative := ()
          comparativeName := "num_conversions"
          individual := [("control", ⟨1/2, 0, 0, 0, 0⟩),
            ("treatment", ⟨1, 0, 0, 0, 0⟩)] } :
        TwoResult Unit)).individual.map Prod.fst = ["control", t]) ∧
    ((({ comparative := [("control", ()), ("treatment", ())]
         comparativeName := "num_conversions"
         individual := [("control", ⟨1/2, 0, 0, 0, 0⟩),
           ("treatment", ⟨1, 0, 0, 0, 0⟩)] } :
        ManyResult Unit)).comparative.map Prod.fst =
      branchLabels [("control", ⟨2, 1⟩), ("treatment", ⟨2, 2⟩)] ∧
      (({ comparative := [("control", ()), ("treatment", ())]
          comparativeName := "num_conversions"
          individual := [("control", ⟨1/2, 0, 0, 0, 0⟩),
            ("treatment", ⟨1, 0, 0, 0, 0⟩)] } :
        ManyResult Unit)).individual.map Prod.fst =
      branchLabels [("control", ⟨2, 1⟩), ("treatment", ⟨2, 2⟩)]) :=
  ⟨(@analysis_result_branch_coverage Unit).1 rng0 cmp0 ppf0
      [("control", ⟨2, 1⟩), ("treatment", ⟨2, 2⟩)] "control" 2 _
      (by
        norm_num [compare_two_from_summary, _generate_samples, npRandomBeta,
          rng0, testLabelOf, dedup, branchLabels, colOf, rowOf,
          summarize_one_from_summary, cmp0, ppf0]
        simp +decide),
    (@analysis_result_branch_coverage Unit).2 rng0 cmp0 ppf0
      [("control", ⟨2, 1⟩), ("treatment", ⟨2, 2⟩)] 2 _
      (by
        norm_num [compare_many_from_summary, _generate_samples, npRandomBeta,
          rng0, branchLabels, colOf, rowOf, summarize_one_from_summary,
          cmp0, ppf0, rowwiseMax, dropCol, seriesMax]
        simp +decide)⟩

/-- C10: on raw data with exactly two distinct branch labels, compare_two
never consults `focus_label`: any two focus labels (present, absent or
None) give identical results. -/
theorem compare_two_focus_label_independent {Stats : Type} (rng : Rng)
    (cmp : List ℚ → List ℚ → Stats) (ppf : Ppf) (df : RawData)
    (h2 : (dedup (df.map Prod.fst)).length = 2)
    (f1 f2 : Option String) (control : String) (ns : Int) :
    compare_two rng cmp ppf df f1 control ns =
      compare_two rng cmp ppf df f2 control ns := by
  have hlen : ¬ (2 < (groupSummary df).length) := by
    rw [length_groupSummary, h2]
    exact lt_irrefl 2
  rw [compare_two, compare_two]
  by_cases hbin : df.all (fun r => r.snd == 0 || r.snd == 1) = true
  · rw [if_pos hbin, if_pos hbin, if_neg hlen, if_neg hlen]
  · rw [if_neg hbin, if_neg hbin]

/-- Witness for C10: a concrete two-branch raw table with two different
focus labels. -/
theorem compare_two_focus_label_independent_witness :
    compare_two rng0 cmp0 ppf0 [("control", 0), ("treatment", 1)] none
        ("control") 3 =
      compare_two rng0 cmp0 ppf0 [("control", 0), ("treatment", 1)]
        (some ("zzz")) ("control") 3 :=
  compare_two_focus_label_independent rng0 cmp0 ppf0
    [("control", 0), ("treatment", 1)] (by decide) none (some ("zzz"))
    "control" 3

end AbtestBeta
